import Mathlib

/-!
Verification of `compo-platform-loop` (`src/loop.rs`) against its
natural-language specification.

The repository is a platform event-loop bridge: it adapts the cooperative
`compo` task runtime (an external collaborator, used only through `spawn`
and `poll_all`) to the native dispatch mechanism of each platform
(Win32 message pump, NSRunLoop timers, Android JNI `MainLoop`).

This file shallowly embeds the platform-specific logic of `src/loop.rs`:

* `handle_windows_message` — the Windows drain loop (lines 73-91);
* the run-loop (macOS/iOS) bootstrap, timer registration and poll block
  (lines 144-250);
* the Android bootstrap `run`, the thread-local slots `RT` / `JAVA_VM`,
  the native callback `poll_all` and the re-entry primitive `vm_exec`
  (lines 50-62 and 305-386).

The `compo` runtime itself is not part of this repository; it is modelled
at its boundary exactly as the specification describes it in §6: `spawn`
enqueues a task, `poll_all` advances every queued task one step without
blocking.
-/

namespace CompoLoop

/-! ## Windows message pump (`handle_windows_message`, loop.rs 73-91) -/

/-- A Windows message, identified by its `MSG.message` code. -/
abbrev Msg := Nat

/-- The Win32 quit message constant `WM_QUIT` (`0x0012`). -/
def WM_QUIT : Msg := 18

/-- Outcome of one drain pass of `handle_windows_message` over the queue:
`dispatched` are the messages passed to `TranslateMessage` and
`DispatchMessageW` in order; `quit` records whether `r#loop.quit()` was
called; `remaining` are the messages still in the OS queue when the pass
stopped (`PeekMessageW` with `PM_REMOVE` removes each retrieved message,
including a retrieved `WM_QUIT`). -/
structure DrainResult where
  dispatched : List Msg
  quit : Bool
  remaining : List Msg
deriving DecidableEq

/-- Shallow embedding of `handle_windows_message` (loop.rs 73-91).
`PeekMessageW(.., PM_REMOVE)` is non-blocking: it pops the head of the
queue if one exists and reports `false` on an empty queue, so the drain
terminates immediately with no message waiting.  A retrieved `WM_QUIT`
triggers `r#loop.quit()` and `break`; any other message is translated and
dispatched and the loop continues. -/
def handle_windows_message : List Msg → DrainResult
  | [] => ⟨[], false, []⟩
  | m :: rest =>
    if m = WM_QUIT then ⟨[], true, rest⟩
    else
      let r := handle_windows_message rest
      ⟨m :: r.dispatched, r.quit, r.remaining⟩

lemma hwm_dispatched (msgs : List Msg) :
    (handle_windows_message msgs).dispatched =
      msgs.takeWhile (fun m => m != WM_QUIT) := by
  induction msgs with
  | nil => rfl
  | cons m rest ih =>
    by_cases h : m = WM_QUIT
    · subst h
      simp [handle_windows_message, List.takeWhile_cons]
    · simp [handle_windows_message, h, List.takeWhile_cons, ih]

lemma hwm_quit (msgs : List Msg) :
    (handle_windows_message msgs).quit = true ↔ WM_QUIT ∈ msgs := by
  induction msgs with
  | nil => simp [handle_windows_message]
  | cons m rest ih =>
    by_cases h : m = WM_QUIT
    · subst h
      simp [handle_windows_message]
    · simp [handle_windows_message, h, ih, Ne.symm h]

lemma hwm_remaining (msgs : List Msg) :
    (handle_windows_message msgs).remaining =
      (msgs.dropWhile (fun m => m != WM_QUIT)).tail := by
  induction msgs with
  | nil => rfl
  | cons m rest ih =>
    by_cases h : m = WM_QUIT
    · subst h
      simp [handle_windows_message, List.dropWhile_cons]
    · simp [handle_windows_message, h, List.dropWhile_cons, ih]

lemma hwm_no_quit_dispatched (msgs : List Msg) :
    WM_QUIT ∉ (handle_windows_message msgs).dispatched := by
  intro hmem
  rw [hwm_dispatched] at hmem
  have := List.mem_takeWhile_imp hmem
  simp at this

/-- C4: the Windows drain retrieves messages with the non-blocking
`PeekMessageW` (on an empty queue it stops at once, dispatching nothing);
every message before the first `WM_QUIT` is translated and dispatched in
order; the bridge's loop object is signalled to quit exactly when a
`WM_QUIT` is present; the `WM_QUIT` itself and everything after it is
never dispatched (the messages after it are left in the queue). -/
theorem windows_drain_spec (msgs : List Msg) :
    (handle_windows_message msgs).dispatched =
        msgs.takeWhile (fun m => m != WM_QUIT) ∧
      ((handle_windows_message msgs).quit = true ↔ WM_QUIT ∈ msgs) ∧
      (handle_windows_message msgs).remaining =
        (msgs.dropWhile (fun m => m != WM_QUIT)).tail ∧
      WM_QUIT ∉ (handle_windows_message msgs).dispatched ∧
      handle_windows_message [] = ⟨[], false, []⟩ :=
  ⟨hwm_dispatched msgs, hwm_quit msgs, hwm_remaining msgs,
    hwm_no_quit_dispatched msgs, rfl⟩

/-! ## Android JNI state (`JAVA_VM`, `vm_exec`, loop.rs 50-62 and 375-386) -/

/-- Error values of the `jni` crate relevant here.  `nullPtr` is the
`Error::NullPtr` produced by `JavaVM::from_raw` on a null pointer;
`threadAttachFailed` stands for a failure of `attach_current_thread`. -/
inductive JniError where
  | nullPtr
  | threadAttachFailed
deriving DecidableEq

/-- `jni::errors::Result`, concretised so equality is decidable. -/
inductive JniResult (α : Type) where
  | ok (v : α)
  | err (e : JniError)
deriving DecidableEq

/-- A `JavaVM` value, identified by its raw pointer. -/
structure JavaVMHandle where
  raw : Nat
deriving DecidableEq

/-- `JavaVM::from_raw(ptr)`: returns `Err(NullPtr)` when the pointer is
null and wraps the pointer otherwise. -/
def javaVMFromRaw (ptr : Nat) : JniResult JavaVMHandle :=
  if ptr = 0 then .err .nullPtr else .ok ⟨ptr⟩

/-- Threads of the process. -/
abbrev ThreadId := Nat

/-- The per-thread initial value of the `JAVA_VM` slot:
`RefCell::new(unsafe { JavaVM::from_raw(null_mut()) })` (loop.rs 61). -/
def javaVMSlotInit : JniResult JavaVMHandle := javaVMFromRaw 0

/-- State of the `JAVA_VM` storage.  In the source it is declared inside
`thread_local!` (loop.rs 50-62), so each thread owns a separate slot that
starts at `javaVMSlotInit`; this structure maps each thread to the current
contents of its slot. -/
structure JavaVMTls where
  slot : ThreadId → JniResult JavaVMHandle

/-- The storage before any thread has written to it: every thread's slot
holds the lazy initializer value. -/
def JavaVMTls.fresh : JavaVMTls := ⟨fun _ => javaVMSlotInit⟩

/-- `JAVA_VM.set(Ok(vm))` executed by `run` (loop.rs 311) on thread `t`:
only the calling thread's slot is written. -/
def JavaVMTls.setOn (s : JavaVMTls) (t : ThreadId) (vm : JavaVMHandle) :
    JavaVMTls :=
  ⟨fun u => if u = t then .ok vm else s.slot u⟩

/-- The check `vm_exec` performs on the borrowed slot: the `Err` arm of its
`match`, which logs `"Java VM is not initialized, please call the run
function ..."` (loop.rs 384). -/
def vmNotInitCheck : JniResult JavaVMHandle → Bool
  | .ok _ => false
  | .err _ => true

/-- Observable events of the Android bridge, in program order:
`JAVA_VM.set`, the spawn of the entry task, `COMPONENT.set`, the
`MainLoop.run` static call, the `register_native_methods` call for
`poll_all`, an invocation of a caller-supplied `vm_exec` action, the error
logs of `vm_exec` and of `run`'s action, and the `RefCell` double-borrow
panic raised by `with_borrow_mut`. -/
inductive AEvent where
  | setJavaVM
  | spawnEntry
  | setComponent
  | callMainLoopRun
  | registerNativePollAll
  | actionInvoked
  | errNotInit
  | errAttach
  | errRunFailed
  | errRegisterFailed
  | panicDoubleBorrow
deriving DecidableEq

/-- View of the `JAVA_VM` slot a piece of Android code has on its thread:
the slot's contents and whether the `RefCell` around it is currently
mutably borrowed (it is, for all code reached from inside a `vm_exec`
action). -/
structure VmThreadView where
  slot : JniResult JavaVMHandle
  borrowed : Bool
deriving DecidableEq

/-- Shallow embedding of `vm_exec` (loop.rs 375-386).  It calls
`JAVA_VM.with_borrow_mut`: if the `RefCell` is already mutably borrowed on
this thread the borrow panics; otherwise, with the borrow held, an `Err`
slot logs the not-initialized error, a failed `attach_current_thread` logs
the attach error, and on success the action runs — with the `RefCell`
still mutably borrowed for its whole duration.  The result is the list of
events plus a flag recording whether a panic is unwinding. -/
def vm_exec (st : VmThreadView) (attachOk : Bool)
    (action : VmThreadView → List AEvent × Bool) : List AEvent × Bool :=
  if st.borrowed then ([.panicDoubleBorrow], true)
  else
    match st.slot with
    | .ok v => if attachOk then action ⟨.ok v, true⟩ else ([.errAttach], false)
    | .err _ => ([.errNotInit], false)

/-- Sequencing of event-producing steps: a panic in the first step unwinds
and the second step never runs. -/
def pseq (x y : List AEvent × Bool) : List AEvent × Bool :=
  if x.2 then x else (x.1 ++ y.1, y.2)

/-- Shallow embedding of the Android `run` (loop.rs 305-335) as the events
it produces on its calling thread.  In order: `JAVA_VM.set(Ok(vm))`, the
`RT.with` block (spawn of the entry task, then `COMPONENT.set(c)`), then
`vm_exec` with the closure that first calls the static method
`MainLoop.run` (logging `"Run failed."` if it returns `Err`) and then
registers the native method `poll_all` (logging `"Register native method
failed."` on `Err`).  `appCode` stands for whatever application callbacks
the Java main loop runs while `MainLoop.run` executes; they run on the
same thread and observe the state `vm_exec` hands to its action. -/
def run_android (vm : JavaVMHandle) (attachOk callOk registerOk : Bool)
    (appCode : VmThreadView → List AEvent × Bool) : List AEvent × Bool :=
  pseq ([.setJavaVM, .spawnEntry, .setComponent], false)
    (vm_exec ⟨.ok vm, false⟩ attachOk fun st =>
      pseq (pseq ([.callMainLoopRun], false) (appCode st))
        (pseq (if callOk then ([], false) else ([.errRunFailed], false))
          (pseq ([.registerNativePollAll], false)
            (if registerOk then ([], false) else ([.errRegisterFailed], false)))))

/-- Java application code that never calls back into the bridge. -/
def noApp : VmThreadView → List AEvent × Bool := fun _ => ([], false)

/-- The action `vm_exec` is given in claims about invocation counts: it
records one `actionInvoked` event and never panics. -/
def invokeOnceAction : VmThreadView → List AEvent × Bool :=
  fun _ => ([.actionInvoked], false)

/-- Number of occurrences of an event in a trace. -/
def countEv (e : AEvent) (evs : List AEvent) : Nat :=
  evs.countP (· == e)

/-- Whether the slot holds a usable `JavaVM`. -/
def jniIsOk {α : Type} : JniResult α → Bool
  | .ok _ => true
  | .err _ => false

/-- The property C2 asserts of an execution trace of `run`: the
registration of the `poll_all` native method strictly precedes the
invocation of the foreign main loop. -/
def registrationPrecedesMainLoop (evs : List AEvent) : Prop :=
  evs.findIdx (· == AEvent.registerNativePollAll) <
    evs.findIdx (· == AEvent.callMainLoopRun)

/-- C1 (code bug): `JAVA_VM` is thread-local, not process-wide.  After
`run` on thread `0` stores a valid `JavaVM`, thread `0`'s slot holds it,
but the slot of a different thread `1` still holds the `Err` initializer
`JavaVM::from_raw(null_mut())`, so `vm_exec` on thread `1` trips the
`"Java VM is not initialized"` check and skips the action even though
`run` was called — contradicting both the claim and the code's own
comment "to allow JNI calls from any thread". -/
theorem javaVM_slot_is_thread_local :
    (JavaVMTls.fresh.setOn 0 ⟨1⟩).slot 0 = .ok ⟨1⟩ ∧
      JavaVMTls.fresh.slot 1 = .err .nullPtr ∧
      (JavaVMTls.fresh.setOn 0 ⟨1⟩).slot 1 = .err .nullPtr ∧
      vmNotInitCheck ((JavaVMTls.fresh.setOn 0 ⟨1⟩).slot 1) = true ∧
      vm_exec ⟨(JavaVMTls.fresh.setOn 0 ⟨1⟩).slot 1, false⟩ true
          invokeOnceAction = ([.errNotInit], false) := by
  refine ⟨rfl, rfl, rfl, rfl, rfl⟩

/-- C2 counterexample: in the execution of the Android `run` where every
JNI call succeeds, the registration of `poll_all` does not precede the
`MainLoop.run` invocation — the trace is `setJavaVM, spawnEntry,
setComponent, callMainLoopRun, registerNativePollAll`, with the main-loop
call at index 3 and the registration at index 4. -/
theorem mainLoop_precedes_registration_counterexample :
    ¬ registrationPrecedesMainLoop
        (run_android ⟨1⟩ true true true noApp).1 := by
  unfold registrationPrecedesMainLoop
  decide

/-- C2 (amended): in every execution of the Android `run` in which thread
attachment succeeds, `run` first invokes the foreign main-loop entry point
`MainLoop.run` and only afterwards registers the `poll_all` callback (both
inside the `vm_exec` action); when attachment fails, neither step happens
and the attach error is logged. -/
theorem registration_follows_mainLoop (vm : JavaVMHandle)
    (callOk registerOk : Bool) :
    (run_android vm true callOk registerOk noApp).1.findIdx
          (· == AEvent.callMainLoopRun) <
        (run_android vm true callOk registerOk noApp).1.findIdx
          (· == AEvent.registerNativePollAll) ∧
      (run_android vm false callOk registerOk noApp).1 =
        [.setJavaVM, .spawnEntry, .setComponent, .errAttach] := by
  cases callOk <;> cases registerOk <;>
    exact ⟨Nat.lt_of_sub_eq_succ rfl, rfl⟩

/-- C3: for a top-level call of `vm_exec` (the `RefCell` not already
borrowed) with an opaque action: no panic unwinds to the caller; the
action is invoked exactly once when the slot holds a `JavaVM` and
attachment succeeds, and zero times otherwise; the not-initialized error
is logged exactly when the slot was never initialized, and the attach
error exactly when the slot is set but attachment fails. -/
theorem vm_exec_error_handling (slot : JniResult JavaVMHandle)
    (attachOk : Bool) :
    (vm_exec ⟨slot, false⟩ attachOk invokeOnceAction).2 = false ∧
      countEv .actionInvoked
          (vm_exec ⟨slot, false⟩ attachOk invokeOnceAction).1 =
        (if jniIsOk slot && attachOk then 1 else 0) ∧
      countEv .errNotInit
          (vm_exec ⟨slot, false⟩ attachOk invokeOnceAction).1 =
        (if jniIsOk slot then 0 else 1) ∧
      countEv .errAttach
          (vm_exec ⟨slot, false⟩ attachOk invokeOnceAction).1 =
        (if jniIsOk slot && !attachOk then 1 else 0) := by
  cases slot <;> cases attachOk <;>
    exact ⟨rfl, rfl, rfl, rfl⟩

/-! ## The `compo` runtime at its boundary (spec §6)

The runtime is an external collaborator of this repository; the bridge
uses it only through `Runtime::new`, `spawn` and `poll_all`.  Per the
specification, `spawn` enqueues a future and `poll_all` "synchronously
advances every task that is currently unblocked, returning without
blocking if none are ready". -/

/-- A spawned task, abstracted to the number of polls it still needs
before its future completes. -/
structure RTask where
  stepsLeft : Nat
deriving DecidableEq

/-- One poll of a task advances it one step (a completed task stays
completed). -/
def RTask.step (t : RTask) : RTask := ⟨t.stepsLeft - 1⟩

/-- The runtime: a queue of spawned tasks. -/
structure Runtime where
  tasks : List RTask
deriving DecidableEq

/-- `Runtime::new()`: an empty task queue. -/
def Runtime.new : Runtime := ⟨[]⟩

/-- `rt.spawn(future)`: enqueue one task. -/
def Runtime.spawn (rt : Runtime) (t : RTask) : Runtime :=
  ⟨rt.tasks ++ [t]⟩

/-- `rt.poll_all()`: advance every queued task once, without blocking. -/
def Runtime.poll_all (rt : Runtime) : Runtime :=
  ⟨rt.tasks.map RTask.step⟩

/-! ## Run-loop platforms (macOS / iOS `run`, loop.rs 144-250) -/

/-- The body of the `RcBlock` installed as the timer callback
(loop.rs 170-175 and 216-221): `rt_weak.upgrade()` followed by
`rt.poll_all()` when the upgrade succeeds.  `owner` is the current state
of the strong owner of the `Runtime` (`none` once it has been dropped),
which is exactly what `Weak::upgrade` observes; the returned flag records
whether `poll_all` was invoked. -/
def poll_block (owner : Option Runtime) : Option Runtime × Bool :=
  match owner with
  | some rt => (some rt.poll_all, true)
  | none => (none, false)

/-- Observable events of the macOS/iOS `run`, in program order:
runtime and component construction, the spawn of the entry task, the
creation of the repeating `NSTimer` and its addition to the main
`NSRunLoop` (interval in seconds, `repeats:` flag, run-loop mode), the
blocking `run_loop.run()`, `NSApplication` activation /
`UIApplication`-or-`NSApplication` run, and the "Can't run on
non-main-thread." error log. -/
inductive MEvent where
  | newRuntime
  | newComponent
  | spawnEntry
  | addTimer (intervalSeconds : ℚ) (repeats : Bool) (mode : String)
  | runLoopRun
  | appActivate
  | appRun
  | errNonMainThread
deriving DecidableEq

/-- Result of the macOS/iOS `run` bootstrap: the events it performs, and
the callback it installed on the timer. -/
structure RunLoopSetup where
  trace : List MEvent
  timerCallback : Option Runtime → Option Runtime × Bool

/-- Shallow embedding of the iOS branch of `run` (loop.rs 155-199),
parameterised by the `application` cargo feature and by whether the
calling thread is the main thread: create the runtime and component,
spawn the entry task, create a timer with
`scheduledTimerWithTimeInterval: 0.01, repeats: true` running
`poll_block` and add it to `NSRunLoop::mainRunLoop()` for mode
`"NSDefaultRunLoopMode"`, then either block in `run_loop.run()` (no
`application` feature) or start `UIApplication` (main thread only,
otherwise log the error). -/
def run_ios (application mainThread : Bool) : RunLoopSetup where
  trace :=
    [.newRuntime, .newComponent, .spawnEntry,
      .addTimer (1 / 100) true ("NSDefaultRunLoopMode")] ++
    (if application then
      (if mainThread then [.appRun] else [.errNonMainThread])
    else [.runLoopRun])
  timerCallback := poll_block

/-- Shallow embedding of the macOS branch of `run` (loop.rs 201-249);
identical to the iOS branch except that the `application` feature
activates `NSApplication` before running it. -/
def run_macos (application mainThread : Bool) : RunLoopSetup where
  trace :=
    [.newRuntime, .newComponent, .spawnEntry,
      .addTimer (1 / 100) true ("NSDefaultRunLoopMode")] ++
    (if application then
      (if mainThread then [.appActivate, .appRun] else [.errNonMainThread])
    else [.runLoopRun])
  timerCallback := poll_block

/-- Recognises timer-registration events. -/
def isAddTimer : MEvent → Bool
  | .addTimer _ _ _ => true
  | _ => false

/-- Recognises the spawn of the entry task. -/
def isSpawnEntry : MEvent → Bool
  | .spawnEntry => true
  | _ => false

/-- The timer registrations contained in a trace. -/
def timersOf (evs : List MEvent) : List MEvent :=
  evs.filter isAddTimer

/-- C5: on both run-loop platforms, for every build configuration, `run`
registers exactly one timer — repeating, at `0.01` s = 10 ms, on the main
run loop in mode `NSDefaultRunLoopMode` — whose callback is the
poll block; and in the default configuration (no `application` feature)
the bootstrap ends by handing control to the blocking `run_loop.run()`,
after the timer has been added. -/
theorem runloop_timer_registration (application mainThread : Bool) :
    timersOf (run_ios application mainThread).trace =
        [.addTimer (1 / 100) true ("NSDefaultRunLoopMode")] ∧
      timersOf (run_macos application mainThread).trace =
        [.addTimer (1 / 100) true ("NSDefaultRunLoopMode")] ∧
      (1 / 100 : ℚ) = 10 / 1000 ∧
      (run_ios false mainThread).trace =
        [.newRuntime, .newComponent, .spawnEntry,
          .addTimer (1 / 100) true ("NSDefaultRunLoopMode"), .runLoopRun] ∧
      (run_macos false mainThread).trace =
        [.newRuntime, .newComponent, .spawnEntry,
          .addTimer (1 / 100) true ("NSDefaultRunLoopMode"), .runLoopRun] ∧
      (∀ rt : Runtime,
        (run_ios application mainThread).timerCallback (some rt) =
          (some rt.poll_all, true)) ∧
      (∀ rt : Runtime,
        (run_macos application mainThread).timerCallback (some rt) =
          (some rt.poll_all, true)) := by
  refine ⟨?_, ?_, by norm_num, rfl, rfl, fun rt => rfl, fun rt => rfl⟩ <;>
    cases application <;> cases mainThread <;> rfl

/-- C6: for every invocation of the run-loop timer callback, `poll_all`
is invoked if and only if the weak handle to the runtime upgrades
(`owner.isSome`); once the strong owner has been dropped the callback is
a pure no-op — it returns `none` unchanged (the runtime is not revived)
and reports no error; and the installed callback of both platforms is
exactly this block. -/
theorem poll_block_weak_upgrade (owner : Option Runtime) :
    ((poll_block owner).2 = true ↔ owner.isSome = true) ∧
      poll_block none = (none, false) ∧
      (∀ rt : Runtime, poll_block (some rt) = (some rt.poll_all, true)) ∧
      (∀ application mainThread : Bool,
        (run_ios application mainThread).timerCallback = poll_block ∧
          (run_macos application mainThread).timerCallback = poll_block) := by
  refine ⟨?_, rfl, fun rt => rfl, fun a m => ⟨rfl, rfl⟩⟩
  cases owner <;> simp [poll_block]

/-- C7: one call to `run` spawns exactly one task on the runtime: the
macOS, iOS and Android traces each contain exactly one spawn event for
every build configuration and JNI outcome, and the runtime state produced
by the bootstrap (`Runtime::new()` then `rt.spawn(entry task)`) holds the
entry task and nothing else. -/
theorem spawn_exactly_once (application mainThread : Bool)
    (vm : JavaVMHandle) (attachOk callOk registerOk : Bool) (t : RTask) :
    (run_ios application mainThread).trace.countP isSpawnEntry = 1 ∧
      (run_macos application mainThread).trace.countP isSpawnEntry = 1 ∧
      countEv .spawnEntry
          (run_android vm attachOk callOk registerOk noApp).1 = 1 ∧
      (Runtime.new.spawn t).tasks = [t] := by
  refine ⟨?_, ?_, ?_, rfl⟩ <;>
    cases application <;> cases mainThread <;>
      cases attachOk <;> cases callOk <;> cases registerOk <;> rfl

/-! ## Weak capture of the root component (loop.rs 158-164, 204-210,
313-319) -/

/-- The kind of handle to the root component a closure holds. -/
inductive HandleKind where
  | strongH
  | weakH
deriving DecidableEq

/-- Reference-count state of one `Rc` allocation. -/
structure RcState where
  strong : Nat
  weak : Nat
deriving DecidableEq

/-- `Rc::new(..)`: one strong owner, no weak handles. -/
def rcNew : RcState := ⟨1, 0⟩

/-- `Rc::downgrade(&c)`: adds a weak handle, leaves the strong count
unchanged. -/
def RcState.downgrade (s : RcState) : RcState := ⟨s.strong, s.weak + 1⟩

/-- Dropping one strong owner. -/
def RcState.dropStrong (s : RcState) : RcState := ⟨s.strong - 1, s.weak⟩

/-- `Weak::upgrade` succeeds exactly while a strong owner survives. -/
def RcState.upgradeSucceeds (s : RcState) : Bool := decide (0 < s.strong)

/-- The handles moved into the entry-task closure
`async move { entry(c_weak).await }` on every platform: only `c_weak`,
the result of `Rc::downgrade(&c)` — never `c` itself (on Android, `c` is
moved into the `COMPONENT` thread-local slot instead, which transfers the
one strong owner without creating another). -/
def entryTaskCapturedHandles : List HandleKind := [.weakH]

/-- Number of strong handles the entry task holds on the root
component. -/
def capturedStrongCount : Nat :=
  entryTaskCapturedHandles.countP (· == HandleKind.strongH)

/-- Strong count of the root component after bootstrap: the single
long-lived owner (`c` on macOS/iOS, the `COMPONENT` slot on Android) plus
whatever strong handles the entry task captured. -/
def componentStrongTotal : Nat := 1 + capturedStrongCount

/-- Rc state of the root component after bootstrap: `componentStrongTotal`
strong owners and the one weak handle from `Rc::downgrade(&c)`. -/
def componentRcAfterBootstrap : RcState := ⟨componentStrongTotal, 1⟩

/-- C8: the entry task captures only the weak handle to the root
component, so its strong contribution is zero; once the single strong
owner is dropped, the strong count is zero and upgrading any previously
captured weak handle fails — the component is observed as gone rather
than revived. -/
theorem entry_task_weak_capture :
    entryTaskCapturedHandles = [.weakH] ∧
      capturedStrongCount = 0 ∧
      componentRcAfterBootstrap.strong = 1 ∧
      (componentRcAfterBootstrap.dropStrong).strong = 0 ∧
      (componentRcAfterBootstrap.dropStrong).upgradeSucceeds = false := by
  refine ⟨rfl, rfl, rfl, rfl, rfl⟩

/-! ## Android thread-local runtime (`RT`, `poll_all`, loop.rs 50-53 and
351-354) -/

/-- State of the `RT` thread-local slot: `thread_local!` gives every
thread its own lazily initialised slot whose initializer is
`Rc::new(Runtime::new())`; `none` means the thread has not touched its
slot yet. -/
structure RtTls where
  slot : ThreadId → Option Runtime

/-- The storage before any thread has touched its slot. -/
def RtTls.fresh : RtTls := ⟨fun _ => none⟩

/-- `RT.with(|rt| body)` on thread `t`: lazily initialise this thread's
slot to `Runtime::new()` on first access, then run `body` against it. -/
def RtTls.withRT (s : RtTls) (t : ThreadId) (body : Runtime → Runtime) :
    RtTls :=
  ⟨fun u => if u = t then some (body ((s.slot t).getD Runtime.new))
    else s.slot u⟩

/-- The runtime part of the Android `run` on its calling thread
(loop.rs 312-320): `RT.with` spawning the entry task. -/
def run_android_rt (s : RtTls) (t : ThreadId) (entryTask : RTask) : RtTls :=
  s.withRT t (fun rt => rt.spawn entryTask)

/-- The registered native callback `poll_all` (loop.rs 352-354) invoked on
thread `t`: `RT.with(|rt| rt.poll_all())`. -/
def poll_all_native (s : RtTls) (t : ThreadId) : RtTls :=
  s.withRT t Runtime.poll_all

/-- C10: `run` on thread `t0` spawns the entry task into `t0`'s
thread-local runtime; the native `poll_all` callback invoked on a
different thread `t1` lazily constructs a fresh, empty runtime in `t1`'s
slot and polls it (polling the empty runtime is a no-op), while `t0`'s
runtime — holding the entry task — is untouched, so the entry task makes
no progress from that invocation. -/
theorem poll_all_foreign_thread_fresh_runtime (t0 t1 : ThreadId)
    (task : RTask) (h : t0 ≠ t1) :
    (run_android_rt RtTls.fresh t0 task).slot t0 =
        some (Runtime.new.spawn task) ∧
      (poll_all_native (run_android_rt RtTls.fresh t0 task) t1).slot t1 =
        some (Runtime.new.poll_all) ∧
      Runtime.new.poll_all = Runtime.new ∧
      (poll_all_native (run_android_rt RtTls.fresh t0 task) t1).slot t0 =
        (run_android_rt RtTls.fresh t0 task).slot t0 := by
  refine ⟨by simp [run_android_rt, RtTls.withRT, RtTls.fresh], ?_, rfl, ?_⟩
  · simp [poll_all_native, run_android_rt, RtTls.withRT, RtTls.fresh,
      h, Ne.symm h]
  · simp [poll_all_native, run_android_rt, RtTls.withRT, RtTls.fresh,
      h, Ne.symm h]

/-- Witness for C10 at `t0 = 0`, `t1 = 1` and an entry task needing three
polls. -/
theorem poll_all_foreign_thread_fresh_runtime_witness :
    (0 : ThreadId) ≠ 1 ∧
      ((run_android_rt RtTls.fresh 0 ⟨3⟩).slot 0 =
          some (Runtime.new.spawn ⟨3⟩) ∧
        (poll_all_native (run_android_rt RtTls.fresh 0 ⟨3⟩) 1).slot 1 =
          some (Runtime.new.poll_all) ∧
        Runtime.new.poll_all = Runtime.new ∧
        (poll_all_native (run_android_rt RtTls.fresh 0 ⟨3⟩) 1).slot 0 =
          (run_android_rt RtTls.fresh 0 ⟨3⟩).slot 0) :=
  ⟨by decide, poll_all_foreign_thread_fresh_runtime 0 1 ⟨3⟩ (by decide)⟩

/-- Application code that re-enters the bridge: during `MainLoop.run` it
calls `vm_exec` again on the same thread with an opaque action. -/
def reentrantAppCode (attach2 : Bool) : VmThreadView → List AEvent × Bool :=
  fun st => vm_exec st attach2 invokeOnceAction

/-- C9: `run` executes the `MainLoop.run` call inside the `vm_exec`
action, i.e. while the `JAVA_VM` `RefCell` is mutably borrowed; a nested
`vm_exec` on the same thread (application code reached through the main
loop) therefore panics with a `RefCell` double borrow — the trace ends in
`panicDoubleBorrow` with the panic flag set, the nested action is never
invoked, and no error is logged instead. -/
theorem reentrant_vm_exec_double_borrow (attach2 : Bool)
    (vm : JavaVMHandle) :
    run_android vm true true true (reentrantAppCode attach2) =
        ([.setJavaVM, .spawnEntry, .setComponent, .callMainLoopRun,
          .panicDoubleBorrow], true) ∧
      countEv .actionInvoked
          (run_android vm true true true (reentrantAppCode attach2)).1 = 0 ∧
      countEv .errNotInit
          (run_android vm true true true (reentrantAppCode attach2)).1 = 0 ∧
      countEv .errAttach
          (run_android vm true true true (reentrantAppCode attach2)).1 = 0 := by
  exact ⟨rfl, rfl, rfl, rfl⟩

end CompoLoop
